import Mathlib

/-
Shallow embedding of the resume-analysis-app core pipeline
(src/src/rating_system.py, src/src/text_analyzer.py, src/src/suggestions.py).

Modelling conventions:
  - Python floats are modelled as exact rationals (ℚ).  All numeric literals in
    the source are decimal and are represented exactly; `round(x, n)` is modelled
    as round-half-to-even on exact rationals, which agrees with Python for the
    decimally-exact values arising in the concrete scenarios proved below.
  - Python dicts are modelled as association lists in insertion order
    (`List (key × value)`); dict membership is key membership, `dict.get(k, d)`
    is `getD`, and `if not d:` is the emptiness test.
  - Python lists are Lean lists; `l[a:b]` is `(l.drop a).take b`.
  - `random.choice` / `random.sample` are modelled by an explicit oracle (`RandOracle`)
    threaded through the suggestion engine, per the spec's design note on
    seedable randomness.
-/

/-- Python `round()` to an integer: round half to even (banker's rounding). -/
def pyRoundInt (q : ℚ) : ℤ :=
  let f := ⌊q⌋
  if q - f = 1/2 then (if f % 2 = 0 then f else f + 1) else ⌊q + 1/2⌋

/-- Python `round(x, 1)`. -/
def roundTo1 (q : ℚ) : ℚ := (pyRoundInt (q * 10) : ℚ) / 10

/-- Python `round(x, 2)`. -/
def roundTo2 (q : ℚ) : ℚ := (pyRoundInt (q * 100) : ℚ) / 100

/-- First-match lookup in an association list modelling a Python dict. -/
def assocLookup {α : Type} (k : String) : List (String × α) → Option α
  | [] => none
  | p :: t => if p.1 = k then some p.2 else assocLookup k t

/-- Lookup in an association list modelling a Python dict (`d.get(k, default)`). -/
def getD {α : Type} (m : List (String × α)) (k : String) (d : α) : α :=
  (assocLookup k m).getD d

/-- Python `k in d` for a dict modelled as an association list. -/
def hasKey {α : Type} (m : List (String × α)) (k : String) : Bool :=
  m.any (fun p => decide (p.1 = k))

/-- Scoring weights of `ResumeRatingSystem.__init__` (`self.weights`). -/
def weights : String → ℚ
  | "skills_diversity" => 0.20
  | "skills_quantity" => 0.15
  | "contact_completeness" => 0.10
  | "sections_completeness" => 0.15
  | "readability" => 0.15
  | "project_quality" => 0.15
  | "content_length" => 0.10
  | _ => 0

/-- Thresholds of `ResumeRatingSystem.__init__` (`self.thresholds`). -/
def min_skills : ℚ := 5
def ideal_skills : ℚ := 15
def min_word_count : ℚ := 150
def ideal_word_count : ℚ := 400
def max_word_count : ℚ := 800
def min_projects : ℕ := 1
def ideal_projects : ℕ := 3
def ideal_sentence_length : ℚ := 15
def max_sentence_length : ℚ := 25

/-- Step part of `score_skills_diversity`, as a function of the category count
(`len(skills.keys())`). -/
def diversityOfCount (categories : ℕ) : ℚ :=
  if categories ≥ 5 then 10
  else if categories ≥ 3 then 7 + ((categories : ℚ) - 3) * 1.5
  else if categories ≥ 1 then 4 + ((categories : ℚ) - 1) * 1.5
  else 0

/-- `ResumeRatingSystem.score_skills_diversity`.  The skills dict is an
association list from category name to the skill list; the category count is the
number of keys. -/
def score_skills_diversity (skills : List (String × List String)) : ℚ :=
  if skills = [] then 0
  else diversityOfCount skills.length

/-- Total number of skills: `sum(len(skill_list) for skill_list in skills.values())`. -/
def totalSkills (skills : List (String × List String)) : ℕ :=
  (skills.map (fun p => p.2.length)).sum

/-- Piecewise part of `score_skills_quantity` as a function of the total count. -/
def quantityOfTotal (total : ℕ) : ℚ :=
  if (total : ℚ) ≥ ideal_skills then 10
  else if (total : ℚ) ≥ min_skills then
    5 + (((total : ℚ) - min_skills) / (ideal_skills - min_skills)) * 5
  else ((total : ℚ) / min_skills) * 5

/-- `ResumeRatingSystem.score_skills_quantity`. -/
def score_skills_quantity (skills : List (String × List String)) : ℚ :=
  if skills = [] then 0
  else quantityOfTotal (totalSkills skills)

/-- `ResumeRatingSystem.score_contact_completeness`: essential fields
(email, phone) worth 3.5 each, bonus fields (linkedin, github) worth 1.5 each,
capped at 10. -/
def score_contact_completeness (contact_info : List (String × String)) : ℚ :=
  if contact_info = [] then 0
  else
    let essential := ["email", "phone"].foldl
      (fun s f => if hasKey contact_info f then s + 3.5 else s) 0
    let total := ["linkedin", "github"].foldl
      (fun s f => if hasKey contact_info f then s + 1.5 else s) essential
    min total 10

/-- `sections.get(section, False)`. -/
def getB (sections : List (String × Bool)) (k : String) : Bool :=
  (assocLookup k sections).getD false

/-- `ResumeRatingSystem.score_sections_completeness`. -/
def score_sections_completeness (sections : List (String × Bool)) : ℚ :=
  if sections = [] then 0
  else
    let s1 := ["experience", "education", "skills"].foldl
      (fun s sec => if getB sections sec then s + 2.0 else s) 0
    let s2 := ["summary", "projects"].foldl
      (fun s sec => if getB sections sec then s + 1.5 else s) s1
    let s3 := ["certifications", "achievements"].foldl
      (fun s sec => if getB sections sec then s + 0.5 else s) s2
    min s3 10

/-- `ResumeRatingSystem.score_readability`: neutral 5.0 on an empty metrics
dict; otherwise a sentence-length sub-score plus a complexity sub-score,
clamped to [0, 10].  Missing keys default to 20 and 0.3. -/
def score_readability (readability_metrics : List (String × ℚ)) : ℚ :=
  if readability_metrics = [] then 5.0
  else
    let sentence_length := getD readability_metrics "avg_sentence_length" 20
    let cx := getD readability_metrics "complexity_ratio" 0.3
    let length_score : ℚ :=
      if sentence_length ≤ ideal_sentence_length then 5.0
      else if sentence_length ≤ max_sentence_length then
        5.0 - ((sentence_length - ideal_sentence_length) /
          (max_sentence_length - ideal_sentence_length)) * 2.0
      else 3.0
    let complexity_score : ℚ :=
      if 0.2 ≤ cx ∧ cx ≤ 0.4 then 5.0
      else if cx < 0.2 then 3.0 + (cx / 0.2) * 2.0
      else 5.0 - ((cx - 0.4) / 0.3) * 2.0
    max 0 (min (length_score + complexity_score) 10.0)

/-- Python `str.split()` (split on whitespace runs, dropping empty pieces),
returning the pieces; only lengths are used by the scoring code. -/
def pyWordsAux : List Char → List Char → List (List Char)
  | acc, [] => if acc = [] then [] else [acc.reverse]
  | acc, c :: t =>
    if c.isWhitespace then
      (if acc = [] then pyWordsAux [] t else acc.reverse :: pyWordsAux [] t)
    else pyWordsAux (c :: acc) t

def pySplit (s : String) : List (List Char) := pyWordsAux [] s.data

/-- `ResumeRatingSystem.score_project_quality`. -/
def score_project_quality (projects : List String) : ℚ :=
  if projects = [] then 0
  else
    let num_projects := projects.length
    let quantity_score : ℚ :=
      if num_projects ≥ ideal_projects then 5.0
      else if num_projects ≥ min_projects then 3.0 + (((num_projects : ℚ) - 1) / 2) * 2.0
      else 0.0
    let quality_score : ℚ :=
      ((projects.take 3).map (fun p =>
        let words := (pySplit p).length
        if words ≥ 15 then (1.67 : ℚ) else if words ≥ 8 then 1.0 else 0.5)).sum
    min (quantity_score + quality_score) 10

/-- `ResumeRatingSystem.score_content_length`.  The word count is taken from
the readability dict, hence modelled as a rational. -/
def score_content_length (word_count : ℚ) : ℚ :=
  if word_count < min_word_count then (word_count / min_word_count) * 4.0
  else if word_count ≤ ideal_word_count then
    7.0 + ((word_count - min_word_count) / (ideal_word_count - min_word_count)) * 3.0
  else if word_count ≤ max_word_count then
    10.0 - ((word_count - ideal_word_count) / (max_word_count - ideal_word_count)) * 3.0
  else 5.0

/-- Stable insertion sort, modelling Python's stable `sorted(..., key=...)`:
among elements comparing equal, earlier elements stay first. -/
def insSorted {α : Type} (le : α → α → Bool) (a : α) : List α → List α
  | [] => [a]
  | b :: t => if le a b then a :: b :: t else b :: insSorted le a t

def pySorted {α : Type} (le : α → α → Bool) : List α → List α
  | [] => []
  | a :: t => insSorted le a (pySorted le t)

/-- Python `str.lower()` (ASCII; the program only lowercases ASCII text). -/
def pyLower (s : String) : String := String.mk (s.data.map Char.toLower)

/-- Python `str.title()` (ASCII): a letter is uppercased when the previous
character is not a letter, lowercased otherwise. -/
def pyTitleAux : Bool → List Char → List Char
  | _, [] => []
  | prevAlpha, c :: rest =>
    (if c.isAlpha then (if prevAlpha then c.toLower else c.toUpper) else c)
      :: pyTitleAux c.isAlpha rest

def pyTitle (s : String) : String := String.mk (pyTitleAux false s.data)

/-- `criterion.replace('_', ' ').title()` applied by the rating system to
criterion names before reporting them. -/
def displayName (criterion : String) : String :=
  pyTitle (String.mk (criterion.data.map (fun c => if c = '_' then ' ' else c)))

/-- Comparison used by `sorted(detailed_scores.items(), key=lambda x: x[1])`. -/
def scoreLe (a b : String × ℚ) : Bool := decide (a.2 ≤ b.2)

/-- Body of the `for criterion, score in sorted_scores[:3]:` loop of
`_identify_improvement_priorities`: append the display name when the score
needs improvement (score < 7.0). -/
def prioLoop : List (String × ℚ) → List String
  | [] => []
  | (criterion, score) :: rest =>
    if score < 7.0 then displayName criterion :: prioLoop rest else prioLoop rest

/-- `ResumeRatingSystem._identify_improvement_priorities`. -/
def identifyImprovementPriorities (detailed_scores : List (String × ℚ)) : List String :=
  prioLoop ((pySorted scoreLe detailed_scores).take 3)

/-- The analysis-result dict produced by `TextAnalyzer.analyze_resume` and
consumed by the scoring and suggestion engines.  Each Python dict value is an
association list; `error` is the optional upstream-error entry. -/
structure AnalysisResult where
  error : Option String
  skills : List (String × List String)
  keywords : List String
  contact_info : List (String × String)
  sections : List (String × Bool)
  readability : List (String × ℚ)
  projects : List String
deriving DecidableEq

/-- Result dict of `ResumeRatingSystem.calculate_overall_score`.  Optional
fields model dict keys that are present only on one branch; `detailed_scores`
is the (possibly empty) detailed-score dict.  The `score_breakdown` entry
(presentation data only, touched by no claim) is not modelled. -/
structure RatingResult where
  overall_score : ℚ
  rating_category : Option String
  rating_description : Option String
  detailed_scores : List (String × ℚ)
  improvement_priority : Option (List String)
  error : Option String
deriving DecidableEq

/-- `ResumeRatingSystem.calculate_overall_score`. -/
def calculate_overall_score (analysis_result : AnalysisResult) : RatingResult :=
  match analysis_result.error with
  | some e =>
    { overall_score := 0.0
      rating_category := none
      rating_description := none
      detailed_scores := []
      improvement_priority := none
      error := some e }
  | none =>
    let skills := analysis_result.skills
    let contact_info := analysis_result.contact_info
    let sections := analysis_result.sections
    let readability := analysis_result.readability
    let projects := analysis_result.projects
    let word_count := getD readability "word_count" 0
    let detailed_scores : List (String × ℚ) :=
      [("skills_diversity", score_skills_diversity skills),
       ("skills_quantity", score_skills_quantity skills),
       ("contact_completeness", score_contact_completeness contact_info),
       ("sections_completeness", score_sections_completeness sections),
       ("readability", score_readability readability),
       ("project_quality", score_project_quality projects),
       ("content_length", score_content_length word_count)]
    let overall_score :=
      roundTo1 (detailed_scores.foldl (fun acc p => acc + p.2 * weights p.1) 0)
    let rc : String × String :=
      if overall_score ≥ 8.5 then
        ("Excellent", "Outstanding resume with strong impact potential")
      else if overall_score ≥ 7.0 then
        ("Good", "Solid resume with room for minor improvements")
      else if overall_score ≥ 5.5 then
        ("Average", "Decent resume but needs significant improvements")
      else if overall_score ≥ 3.0 then
        ("Below Average", "Resume needs major improvements to be competitive")
      else
        ("Poor", "Resume requires complete overhaul")
    { overall_score := overall_score
      rating_category := some rc.1
      rating_description := some rc.2
      detailed_scores := detailed_scores.map (fun p => (p.1, roundTo1 p.2))
      improvement_priority := some (identifyImprovementPriorities detailed_scores)
      error := none }

/-- Randomness oracle for the suggestion engine, modelling `random.choice` and
`random.sample` (the spec's design notes require the random source to be an
explicit injected dependency). -/
structure RandOracle where
  choice : List String → String
  sample : List String → Nat → List String

/-- Python substring containment on char lists (`needle in hay`). -/
def listContainsSub (needle : List Char) : List Char → Bool
  | [] => needle.isEmpty
  | c :: t => needle.isPrefixOf (c :: t) || listContainsSub needle t

/-- Python `needle in hay` for strings. -/
def strContains (hay needle : String) : Bool := listContainsSub needle.data hay.data

/-- `SuggestionsSystem.__init__`: `self.skill_suggestions` (category → templates).
Returns `none` for categories outside the table. -/
def skill_suggestions : String → Option (List String)
  | "programming_languages" => some
      ["Add specific programming languages you've used in projects",
       "Mention version numbers for programming languages (e.g., Python 3.9)",
       "Include both frontend and backend technologies if applicable",
       "Add emerging technologies relevant to your field"]
  | "web_technologies" => some
      ["List specific frameworks and libraries you've worked with",
       "Mention responsive design and mobile-first development experience",
       "Include API development and integration experience",
       "Add version control systems (Git, GitHub, GitLab)"]
  | "databases" => some
      ["Specify database management systems you've used",
       "Mention both SQL and NoSQL databases if applicable",
       "Include database design and optimization experience",
       "Add data modeling and schema design skills"]
  | "cloud_platforms" => some
      ["List cloud platforms and services you've used",
       "Mention specific AWS/Azure/GCP services",
       "Include containerization technologies (Docker, Kubernetes)",
       "Add CI/CD pipeline experience"]
  | "soft_skills" => some
      ["Include leadership and team collaboration skills",
       "Mention communication and presentation abilities",
       "Add problem-solving and analytical thinking skills",
       "Include project management and organizational skills"]
  | _ => none

/-- Key order of `self.skill_suggestions` (used for `set(...)` difference; the
Python set iteration order is unspecified, modelled here as declaration order,
which preserves membership and emptiness). -/
def skillCategoryNames : List String :=
  ["programming_languages", "web_technologies", "databases",
   "cloud_platforms", "soft_skills"]

/-- `SuggestionsSystem.__init__`: `self.section_suggestions`. -/
def section_suggestions : String → Option (List String)
  | "summary" => some
      ["Add a professional summary highlighting your key achievements",
       "Include 2-3 lines summarizing your expertise and career goals",
       "Mention years of experience and key specializations",
       "Include your most impressive accomplishment or metric"]
  | "experience" => some
      ["Use action verbs to start each bullet point (Developed, Implemented, Led)",
       "Include quantifiable achievements and metrics",
       "Mention specific technologies and tools used",
       "Focus on impact and results rather than just responsibilities"]
  | "education" => some
      ["Include your degree, major, university, and graduation year",
       "Add relevant coursework if you're a recent graduate",
       "Mention academic achievements, honors, or high GPA",
       "Include relevant certifications and professional development"]
  | "skills" => some
      ["Organize skills into categories (Technical, Languages, Tools)",
       "List skills in order of proficiency",
       "Include both hard and soft skills",
       "Match skills to job requirements when possible"]
  | "projects" => some
      ["Include 2-4 relevant projects with brief descriptions",
       "Mention technologies used and your role",
       "Add links to GitHub repos or live demos",
       "Quantify impact or results where possible"]
  | _ => none

/-- `SuggestionsSystem.__init__`: `self.formatting_suggestions`. -/
def formatting_suggestions : List String :=
  ["Use consistent formatting throughout the document",
   "Keep margins between 0.5-1 inch on all sides",
   "Use a professional, readable font (Arial, Calibri, Times New Roman)",
   "Maintain consistent font sizes (10-12pt for body, 14-16pt for headers)",
   "Use bullet points for easy scanning",
   "Ensure adequate white space between sections",
   "Keep resume to 1-2 pages maximum",
   "Save as PDF to preserve formatting"]

/-- `self.content_improvement_tips['action_verbs']`. -/
def action_verbs : List String :=
  ["Achieved", "Developed", "Implemented", "Led", "Managed", "Created",
   "Improved", "Increased", "Reduced", "Optimized", "Designed", "Built"]

/-- `self.content_improvement_tips['metrics_examples']`. -/
def metrics_examples : List String :=
  ["Increased system efficiency by 25%",
   "Reduced processing time by 4 hours daily",
   "Led a cross-functional team of 8 developers",
   "Improved user satisfaction scores from 3.2 to 4.6",
   "Generated $2M+ in additional revenue through optimization",
   "Completed 95% of projects ahead of schedule"]

/-- `detailed_scores.get(criterion, 0)` as used by the suggestion generators. -/
def getScore (detailed_scores : List (String × ℚ)) (k : String) : ℚ :=
  getD detailed_scores k 0

/-- `SuggestionsSystem.generate_skill_suggestions`. -/
def generate_skill_suggestions (r : RandOracle) (skills_analysis : List (String × List String))
    (detailed_scores : List (String × ℚ)) : List String :=
  let diversity_part : List String :=
    if getScore detailed_scores "skills_diversity" < 7.0 then
      "💡 **Skills Diversity**: Add skills from different categories (technical, tools, soft skills)"
        :: ((skillCategoryNames.filter (fun c => ¬ hasKey skills_analysis c)).take 2).map
          (fun category =>
            "✨ **" ++ displayName category ++ "**: "
              ++ r.choice ((skill_suggestions category).getD []))
    else []
  let quantity_part : List String :=
    if getScore detailed_scores "skills_quantity" < 7.0 then
      "📈 **Skills Quantity**: Add more specific skills and technologies you've worked with"
        :: skills_analysis.filterMap (fun p =>
          if p.2.length < 3 then
            some ("🔧 **" ++ displayName p.1 ++ "**: "
              ++ r.choice ((skill_suggestions p.1).getD
                   ["Add more specific skills in this category"]))
          else none)
    else []
  diversity_part ++ quantity_part

/-- `SuggestionsSystem.generate_section_suggestions`. -/
def generate_section_suggestions (r : RandOracle) (sections_analysis : List (String × Bool))
    (detailed_scores : List (String × ℚ)) : List String :=
  let missing_essential : List String :=
    (["experience", "education", "skills"].filter
        (fun sec => ¬ getB sections_analysis sec)).map
      (fun sec => "⚠️ **Missing " ++ pyTitle sec ++ " Section**: This is essential for any resume")
  let missing_important : List String :=
    (["summary", "projects"].filter (fun sec => ¬ getB sections_analysis sec)).map
      (fun sec => "➕ **Add " ++ pyTitle sec ++ " Section**: "
        ++ r.choice ((section_suggestions sec).getD []))
  let improve_existing : List String :=
    if getScore detailed_scores "sections_completeness" < 8.0 then
      sections_analysis.filterMap (fun p =>
        match section_suggestions p.1 with
        | some templates =>
          if p.2 then
            some ("✏️ **Improve " ++ pyTitle p.1 ++ " Section**: " ++ r.choice templates)
          else none
        | none => none)
    else []
  missing_essential ++ missing_important ++ improve_existing

/-- `SuggestionsSystem.generate_content_suggestions`. -/
def generate_content_suggestions (analysis_result : AnalysisResult)
    (detailed_scores : List (String × ℚ)) : List String :=
  let word_count := getD analysis_result.readability "word_count" 0
  let length_part : List String :=
    if getScore detailed_scores "content_length" < 7.0 then
      if word_count < 150 then
        ["📝 **Content Length**: Your resume is too brief. Add more details about your experience and achievements"]
      else if word_count > 800 then
        ["✂️ **Content Length**: Your resume is too long. Focus on the most relevant and impactful information"]
      else []
    else []
  let readability_part : List String :=
    if getScore detailed_scores "readability" < 7.0 then
      (if getD analysis_result.readability "avg_sentence_length" 20 > 25 then
        ["🎯 **Readability**: Use shorter, more concise sentences for better readability"]
      else []) ++
      (if getD analysis_result.readability "complexity_ratio" 0.3 > 0.5 then
        ["💭 **Readability**: Simplify complex words where possible while maintaining professionalism"]
      else [])
    else []
  let projects := analysis_result.projects
  let project_part : List String :=
    if getScore detailed_scores "project_quality" < 7.0 then
      (if projects.length = 0 then
        ["🚀 **Projects**: Add 2-3 relevant projects that showcase your skills"]
      else if projects.length < 3 then
        ["🚀 **Projects**: Add more projects to demonstrate your practical experience"]
      else []) ++
      (if projects.filter (fun p => (pySplit p).length < 10) ≠ [] then
        ["📋 **Project Descriptions**: Expand your project descriptions with technologies used and impact achieved"]
      else [])
    else []
  let contact_part : List String :=
    if getScore detailed_scores "contact_completeness" < 8.0 then
      let missing_contact : List String :=
        (if ¬ hasKey analysis_result.contact_info "email" then ["professional email"] else []) ++
        (if ¬ hasKey analysis_result.contact_info "phone" then ["phone number"] else []) ++
        (if ¬ hasKey analysis_result.contact_info "linkedin" then ["LinkedIn profile"] else [])
      if missing_contact ≠ [] then
        ["📞 **Contact Info**: Add " ++ String.intercalate ", " missing_contact]
      else []
    else []
  length_part ++ readability_part ++ project_part ++ contact_part

/-- `SuggestionsSystem.generate_formatting_suggestions`. -/
def generate_formatting_suggestions (r : RandOracle) : List String :=
  (r.sample formatting_suggestions 3).map (fun tip => "🎨 **Formatting**: " ++ tip)

/-- `SuggestionsSystem.generate_content_enhancement_tips`. -/
def generate_content_enhancement_tips (r : RandOracle) : List String :=
  ["💪 **Action Verbs**: Start bullet points with strong verbs like: "
     ++ String.intercalate ", " (r.sample action_verbs 4),
   "📊 **Quantify Achievements**: Include specific metrics and numbers (e.g., "
     ++ String.intercalate " | " (r.sample metrics_examples 3) ++ ")"]

/-- First-occurrence deduplication.  Models `list(set(...))`: Python's set
iteration order is unspecified, so we fix first-occurrence order, which agrees
with the source on membership and emptiness. -/
def dedupAux : List String → List String → List String
  | _, [] => []
  | seen, a :: t =>
    if seen.contains a then dedupAux seen t else a :: dedupAux (a :: seen) t

/-- `list(set(filter(None, items)))` applied per tier at the end of
`generate_priority_suggestions`. -/
def pyDedupNonEmpty (items : List String) : List String :=
  dedupAux [] (items.filter (fun s => s ≠ ""))

/-- The three suggestion tiers returned by `generate_priority_suggestions`. -/
structure SuggestionTiers where
  critical : List String
  important : List String
  enhancement : List String
deriving DecidableEq

/-- Critical-tier dispatch: body of the `for priority in improvement_priority:`
loop of `generate_priority_suggestions`. -/
def criticalFor (r : RandOracle) (analysis_result : AnalysisResult)
    (detailed_scores : List (String × ℚ)) (priority : String) : List String :=
  if strContains (pyLower priority) "skills" then
    (generate_skill_suggestions r analysis_result.skills detailed_scores).take 2
  else if strContains (pyLower priority) "section" then
    (generate_section_suggestions r analysis_result.sections detailed_scores).take 2
  else if strContains (pyLower priority) "content" ∨ strContains (pyLower priority) "readability" then
    (generate_content_suggestions analysis_result detailed_scores).take 2
  else []

/-- `SuggestionsSystem.generate_priority_suggestions`. -/
def generate_priority_suggestions (r : RandOracle) (analysis_result : AnalysisResult)
    (rating_result : RatingResult) : SuggestionTiers :=
  let detailed_scores := rating_result.detailed_scores
  let improvement_priority := rating_result.improvement_priority.getD []
  let critical :=
    improvement_priority.foldl
      (fun acc priority => acc ++ criticalFor r analysis_result detailed_scores priority) []
  let important :=
    ((generate_content_suggestions analysis_result detailed_scores).drop 2).take 2 ++
    ((generate_section_suggestions r analysis_result.sections detailed_scores).drop 2).take 2
  let enhancement :=
    (generate_formatting_suggestions r).take 2 ++
    (generate_content_enhancement_tips r).take 3
  { critical := pyDedupNonEmpty critical
    important := pyDedupNonEmpty important
    enhancement := pyDedupNonEmpty enhancement }

/-
Contact extraction (`TextAnalyzer.analyze_contact_info`).  The four regular
expressions are embedded as explicit backtracking matchers over char lists with
Python's leftmost, greedy, preference-ordered semantics (`re.findall` scans
left to right and, per start position, explores quantifier options greedily,
later choice points varying first).  Character classes are ASCII, matching the
patterns in the source.
-/

/-- First successful alternative, in preference order. -/
def firstSome {α : Type} : List (Option α) → Option α
  | [] => none
  | some a :: _ => some a
  | none :: rest => firstSome rest

/-- Python regex `\w` (ASCII). -/
def isWordChar (c : Char) : Bool := c.isAlpha || c.isDigit || c == '_'

/-- Python regex `\s` (ASCII whitespace). -/
def isPySpace (c : Char) : Bool :=
  c == ' ' || c == '\t' || c == '\n' || c == '\x0d' || c == '\x0c' || c == '\x0b'

/-- Separator class `[-.\s]` of the phone pattern. -/
def isPhoneSep (c : Char) : Bool := c == '-' || c == '.' || isPySpace c

/-- Greedy optional single character (`c?`): both alternatives as
(consumed, rest), consuming first. -/
def optOne (p : Char → Bool) : List Char → List (List Char × List Char)
  | [] => [([], [])]
  | c :: t => if p c then [([c], t), ([], c :: t)] else [([], c :: t)]

/-- Consume exactly `n` characters of class `p`. -/
def exactly (p : Char → Bool) : Nat → List Char → Option (List Char × List Char)
  | 0, s => some ([], s)
  | _ + 1, [] => none
  | n + 1, c :: t =>
    if p c then (exactly p n t).map (fun r => (c :: r.1, r.2)) else none

/-- Greedy `\d{1,3}`: candidate (consumed, rest) pairs, longest first. -/
def digits1to3 (s : List Char) : List (List Char × List Char) :=
  ((exactly Char.isDigit 3 s).toList ++ (exactly Char.isDigit 2 s).toList ++
   (exactly Char.isDigit 1 s).toList)

/-- Tail of the phone pattern after the optional group:
`\(?\d{3}\)?[-.\s]?\d{3}[-.\s]?\d{4}`.  Returns the rest of the input after a
match. -/
def phoneTail (s : List Char) : Option (List Char) :=
  firstSome <| (optOne (fun c => c == '(') s).map (fun o1 =>
    (exactly Char.isDigit 3 o1.2).bind (fun d1 =>
      firstSome <| (optOne (fun c => c == ')') d1.2).map (fun o2 =>
        firstSome <| (optOne isPhoneSep o2.2).map (fun o3 =>
          (exactly Char.isDigit 3 o3.2).bind (fun d2 =>
            firstSome <| (optOne isPhoneSep d2.2).map (fun o4 =>
              (exactly Char.isDigit 4 o4.2).map (fun d3 => d3.2)))))))

/-- Candidates for the capture group `(\+?\d{1,3}[-.\s]?)` when it participates:
(captured text, rest), in greedy preference order. -/
def phoneGroupPresent (s : List Char) : List (List Char × List Char) :=
  (optOne (fun c => c == '+') s).flatMap (fun o1 =>
    (digits1to3 o1.2).flatMap (fun d =>
      (optOne isPhoneSep d.2).map (fun o2 =>
        (o1.1 ++ d.1 ++ o2.1, o2.2))))

/-- Match the full phone pattern `(\+?\d{1,3}[-.\s]?)?\(?\d{3}\)?[-.\s]?\d{3}[-.\s]?\d{4}`
at the start of `s`.  Returns (capture-group content, rest).  When the optional
group does not participate, `re.findall` reports `''` for it. -/
def phoneMatchAt (s : List Char) : Option (String × List Char) :=
  firstSome <|
    ((phoneGroupPresent s).map (fun g =>
      (phoneTail g.2).map (fun rest => (String.mk g.1, rest))))
    ++ [(phoneTail s).map (fun rest => (("" : String), rest))]

/-- `re.findall(phone_pattern, text)`: the pattern has exactly one group, so
findall returns the list of group contents, one per non-overlapping match,
scanning left to right.  Fuel is the input length (every match is non-empty). -/
def findallPhoneAux : Nat → List Char → List String
  | 0, _ => []
  | _ + 1, [] => []
  | fuel + 1, c :: rest =>
    match phoneMatchAt (c :: rest) with
    | some (cap, rem) => cap :: findallPhoneAux fuel rem
    | none => findallPhoneAux fuel rest

def findallPhone (text : String) : List String :=
  findallPhoneAux text.data.length text.data

/-- Local-part class `[A-Za-z0-9._%+-]` of the email pattern. -/
def isEmailLocal (c : Char) : Bool :=
  c.isAlpha || c.isDigit || c == '.' || c == '_' || c == '%' || c == '+' || c == '-'

/-- Domain class `[A-Za-z0-9.-]`. -/
def isEmailDomain (c : Char) : Bool := c.isAlpha || c.isDigit || c == '.' || c == '-'

/-- TLD class `[A-Z|a-z]` (the source pattern literally includes `|`). -/
def isTld (c : Char) : Bool := c.isAlpha || c == '|'

/-- Word boundary `\b` between an optional previous character (as word-ness)
and the next character (out of text counts as non-word). -/
def isBoundary (prevW nextW : Bool) : Bool := prevW != nextW

/-- TLD part `[A-Z|a-z]{2,}\b`: given the maximal TLD run `trun` and the text
after it, try lengths from longest to 2, requiring a trailing word boundary.
Returns (consumed, rest). -/
def tldCands (trun rest3 : List Char) : Option (List Char × List Char) :=
  firstSome <| ((List.range (trun.length - 1)).reverse.map (fun i => i + 2)).map
    (fun m =>
      let consumed := trun.take m
      let after := trun.drop m ++ rest3
      let lastW := isWordChar (consumed.getLastD ' ')
      let nextW := match after with
        | [] => false
        | c :: _ => isWordChar c
      if isBoundary lastW nextW then some (consumed, after) else none)

/-- After the `@`: `[A-Za-z0-9.-]+\.[A-Z|a-z]{2,}\b` with greedy backtracking
over the domain length.  `drun` is the maximal domain run, `rest2` the text
after it. -/
def emailDomainCands (drun rest2 : List Char) : Option (List Char × List Char) :=
  firstSome <| ((List.range drun.length).reverse.map (fun i => i + 1)).map
    (fun k =>
      let dpart := drun.take k
      match drun.drop k ++ rest2 with
      | '.' :: afterDot =>
        let sp := afterDot.span isTld
        (tldCands sp.1 sp.2).map (fun t => (dpart ++ '.' :: t.1, t.2))
      | _ => none)

/-- Match `\b[A-Za-z0-9._%+-]+@[A-Za-z0-9.-]+\.[A-Z|a-z]{2,}\b` at the start of
`s`, where `prevW` is the word-ness of the preceding character.  The local part
is maximal-munch (its class excludes `@`, so no shorter run can be followed by
`@`). -/
def emailMatchAt (prevW : Bool) (s : List Char) : Option (List Char × List Char) :=
  match s with
  | [] => none
  | c :: _ =>
    if isBoundary prevW (isWordChar c) then
      let lp := s.span isEmailLocal
      if lp.1 = [] then none
      else
        match lp.2 with
        | '@' :: afterAt =>
          let dp := afterAt.span isEmailDomain
          (emailDomainCands dp.1 dp.2).map
            (fun d => (lp.1 ++ '@' :: d.1, d.2))
        | _ => none
    else none

/-- `re.findall(email_pattern, text)` (no groups: full matches). -/
def findallEmailAux : Nat → Bool → List Char → List String
  | 0, _, _ => []
  | _ + 1, _, [] => []
  | fuel + 1, prevW, c :: rest =>
    match emailMatchAt prevW (c :: rest) with
    | some (m, rem) => String.mk m :: findallEmailAux fuel (isWordChar (m.getLastD ' ')) rem
    | none => findallEmailAux fuel (isWordChar c) rest

def findallEmail (text : String) : List String :=
  findallEmailAux text.data.length false text.data

/-- `[\w-]` class of the linkedin/github patterns. -/
def isHandleChar (c : Char) : Bool := isWordChar c || c == '-'

/-- Match `<prefixChars>[\w-]+` at the start of `s` (literal prefix then a
maximal non-empty handle run). -/
def literalHandleMatchAt (lit : List Char) (s : List Char) :
    Option (List Char × List Char) :=
  if lit.isPrefixOf s then
    let sp := (s.drop lit.length).span isHandleChar
    if sp.1 = [] then none else some (lit ++ sp.1, sp.2)
  else none

/-- `re.findall` for the linkedin/github patterns (applied to lowercased text
by the source). -/
def findallLiteralHandleAux (lit : List Char) : Nat → List Char → List String
  | 0, _ => []
  | _ + 1, [] => []
  | fuel + 1, c :: rest =>
    match literalHandleMatchAt lit (c :: rest) with
    | some (m, rem) => String.mk m :: findallLiteralHandleAux lit fuel rem
    | none => findallLiteralHandleAux lit fuel rest

def findallLinkedin (text : String) : List String :=
  findallLiteralHandleAux "linkedin.com/in/".data text.data.length text.data

def findallGithub (text : String) : List String :=
  findallLiteralHandleAux "github.com/".data text.data.length text.data

/-- `TextAnalyzer.analyze_contact_info`: builds the contact dict in the order
email, phone, linkedin, github; each field is present only when its findall
list is non-empty and then takes the first element.  For the phone pattern,
which contains exactly one capture group, `re.findall` returns group contents
(so `phones[0]` is never a tuple and the `''.join` branch is dead). -/
def analyze_contact_info (text : String) : List (String × String) :=
  (match findallEmail text with
   | e :: _ => [("email", e)]
   | [] => []) ++
  (match findallPhone text with
   | p :: _ => [("phone", p)]
   | [] => []) ++
  (match findallLinkedin (pyLower text) with
   | l :: _ => [("linkedin", l)]
   | [] => []) ++
  (match findallGithub (pyLower text) with
   | g :: _ => [("github", g)]
   | [] => [])

/-- Result dict of `TextAnalyzer.compare_with_job`.  Optional fields model dict
keys present only on one branch: the lookup-miss branch returns only `error`,
`missing_keywords` and `match_score`. -/
structure JobComparison where
  error : Option String
  required_keywords : Option (List String)
  matched_keywords : Option (List String)
  missing_keywords : Option (List String)
  match_score : Option ℚ
  recommendations : Option (List String)
deriving DecidableEq

/-- `TextAnalyzer.compare_with_job`.  `job_keywords` is the static job-keyword
dictionary (`self.job_keywords`, injected per the spec's design notes);
`resume_analysis` supplies the keyword list. -/
def compare_with_job (job_keywords : List (String × List String))
    (resume_analysis : AnalysisResult) (job_title : String) : JobComparison :=
  match assocLookup (pyLower job_title) job_keywords with
  | none =>
    { error := some ("Job title \"" ++ job_title ++ "\" not found in database")
      required_keywords := none
      matched_keywords := none
      missing_keywords := some []
      match_score := some 0
      recommendations := none }
  | some required_keywords =>
    let resume_text := String.intercalate " " resume_analysis.keywords
    let matched_keywords := required_keywords.filter
      (fun kw => strContains (pyLower resume_text) (pyLower kw))
    let missing_keywords := required_keywords.filter
      (fun kw => ¬ strContains (pyLower resume_text) (pyLower kw))
    let match_score : ℚ :=
      if required_keywords ≠ [] then
        (matched_keywords.length : ℚ) / (required_keywords.length : ℚ) * 100
      else 0
    { error := none
      required_keywords := some required_keywords
      matched_keywords := some matched_keywords
      missing_keywords := some missing_keywords
      match_score := some (roundTo2 match_score)
      recommendations := some ((missing_keywords.take 5).map
        (fun kw => "Add '" ++ kw ++ "' to relevant sections")) }

/-
Concrete inputs used by the scenario theorems below.
-/

/-- The degenerate feature bundle: no upstream error, every map empty, no
projects (hence zero word count). -/
def degenerateBundle : AnalysisResult :=
  { error := none, skills := [], keywords := [], contact_info := [],
    sections := [], readability := [], projects := [] }

/-- An analysis result carrying an upstream error. -/
def erroredBundle : AnalysisResult :=
  { error := some "No text provided for analysis", skills := [], keywords := [],
    contact_info := [], sections := [], readability := [], projects := [] }

/-- A bundle whose resume has every section present. -/
def allSectionsBundle : AnalysisResult :=
  { error := none
    skills := [("programming_languages", ["Python", "Java", "C++"]),
               ("web_technologies", ["React", "Django", "Flask"]),
               ("databases", ["MySQL", "MongoDB", "Redis"]),
               ("cloud_platforms", ["AWS", "Docker", "Kubernetes"]),
               ("soft_skills", ["Leadership", "Communication", "Teamwork"])]
    keywords := []
    contact_info := [("email", "a@b.com"), ("phone", "555-123-4567"),
                     ("linkedin", "linkedin.com/in/a"), ("github", "github.com/a")]
    sections := [("contact", true), ("summary", true), ("experience", true),
                 ("education", true), ("skills", true), ("projects", true),
                 ("certifications", true), ("achievements", true)]
    readability := [("word_count", 400), ("avg_sentence_length", 14),
                    ("complexity_ratio", 0.3)]
    projects := [] }

/-- A score report with every detailed score high (nothing flagged). -/
def highScoreReport : RatingResult :=
  { overall_score := 10
    rating_category := some "Excellent"
    rating_description := some "Outstanding resume with strong impact potential"
    detailed_scores :=
      [("skills_diversity", 10), ("skills_quantity", 10),
       ("contact_completeness", 10), ("sections_completeness", 10),
       ("readability", 10), ("project_quality", 10), ("content_length", 10)]
    improvement_priority := some []
    error := none }

/-- A concrete deterministic randomness oracle (seed stand-in). -/
def rand0 : RandOracle :=
  { choice := fun l => l.headD "", sample := fun l n => l.take n }

/-- A small concrete job-keyword dictionary. -/
def jobKeywordsDb : List (String × List String) :=
  [("software engineer", ["python", "java", "git"]),
   ("data scientist", ["python", "pandas", "statistics"])]

/-
Helper lemmas.
-/

theorem prioLoop_eq_filter (l : List (String × ℚ)) :
    prioLoop l = (l.filter (fun p => decide (p.2 < 7.0))).map (fun p => displayName p.1) := by
  induction l with
  | nil => rfl
  | cons a t ih =>
    rcases a with ⟨c, s⟩
    by_cases h : s < (7.0 : ℚ)
    · simp [prioLoop, h, ih]
    · simp [prioLoop, h, ih]

theorem pyRoundInt_bounds (x : ℚ) (h0 : 0 ≤ x) (h1 : x ≤ 100) :
    0 ≤ pyRoundInt x ∧ pyRoundInt x ≤ 100 := by
  have hf0 : (0 : ℤ) ≤ ⌊x⌋ := Int.le_floor.mpr (by exact_mod_cast h0)
  have hfx : (⌊x⌋ : ℚ) ≤ x := Int.floor_le x
  simp only [pyRoundInt]
  split_ifs with hhalf heven
  · refine ⟨hf0, ?_⟩
    exact_mod_cast le_trans hfx h1
  · have hq : (⌊x⌋ : ℚ) < 100 := by linarith
    have : ⌊x⌋ < 100 := by exact_mod_cast hq
    omega
  · constructor
    · exact Int.le_floor.mpr (by push_cast; linarith)
    · have : ⌊x + 1/2⌋ < 101 := Int.floor_lt.mpr (by push_cast; linarith)
      omega

theorem roundTo1_bounds (q : ℚ) (h0 : 0 ≤ q) (h1 : q ≤ 10) :
    0 ≤ roundTo1 q ∧ roundTo1 q ≤ 10 := by
  obtain ⟨ha, hb⟩ := pyRoundInt_bounds (q * 10) (by linarith) (by linarith)
  have ha' : (0 : ℚ) ≤ (pyRoundInt (q * 10) : ℚ) := by exact_mod_cast ha
  have hb' : ((pyRoundInt (q * 10) : ℚ)) ≤ 100 := by exact_mod_cast hb
  unfold roundTo1
  constructor <;> [positivity; linarith]

theorem diversityOfCount_bounds (c : ℕ) :
    0 ≤ diversityOfCount c ∧ diversityOfCount c ≤ 10 := by
  unfold diversityOfCount
  split_ifs with h5 h3 h1
  · norm_num
  · have u : c ≤ 4 := by omega
    have l3 : (3 : ℚ) ≤ (c : ℚ) := by exact_mod_cast h3
    have u4 : (c : ℚ) ≤ 4 := by exact_mod_cast u
    constructor <;> nlinarith
  · have u : c ≤ 2 := by omega
    have l1 : (1 : ℚ) ≤ (c : ℚ) := by exact_mod_cast h1
    have u2 : (c : ℚ) ≤ 2 := by exact_mod_cast u
    constructor <;> nlinarith
  · norm_num

theorem score_skills_diversity_bounds (skills : List (String × List String)) :
    0 ≤ score_skills_diversity skills ∧ score_skills_diversity skills ≤ 10 := by
  unfold score_skills_diversity
  split_ifs
  · norm_num
  · exact diversityOfCount_bounds _

theorem quantityOfTotal_bounds (t : ℕ) :
    0 ≤ quantityOfTotal t ∧ quantityOfTotal t ≤ 10 := by
  have h0 : (0 : ℚ) ≤ (t : ℚ) := by positivity
  unfold quantityOfTotal min_skills ideal_skills
  split_ifs with h15 h5
  · norm_num
  · push_neg at h15
    constructor <;> nlinarith
  · push_neg at h5
    constructor <;> nlinarith

theorem score_skills_quantity_bounds (skills : List (String × List String)) :
    0 ≤ score_skills_quantity skills ∧ score_skills_quantity skills ≤ 10 := by
  unfold score_skills_quantity
  split_ifs
  · norm_num
  · exact quantityOfTotal_bounds _

theorem foldl_condAdd_lb {α : Type} (P : α → Bool) (k : ℚ) (hk : 0 ≤ k) :
    ∀ (l : List α) (acc : ℚ), 0 ≤ acc →
      0 ≤ l.foldl (fun s x => if P x then s + k else s) acc := by
  intro l
  induction l with
  | nil => intro acc h; simpa using h
  | cons a t ih =>
    intro acc h
    simp only [List.foldl_cons]
    by_cases hp : P a
    · exact ih _ (by simp [hp]; linarith)
    · exact ih _ (by simp [hp]; linarith)

theorem score_contact_completeness_bounds (ci : List (String × String)) :
    0 ≤ score_contact_completeness ci ∧ score_contact_completeness ci ≤ 10 := by
  unfold score_contact_completeness
  split_ifs
  · norm_num
  · have h1 : (0 : ℚ) ≤ ["email", "phone"].foldl
        (fun s f => if hasKey ci f then s + 3.5 else s) 0 :=
      foldl_condAdd_lb _ _ (by norm_num) _ _ le_rfl
    have h2 : (0 : ℚ) ≤ ["linkedin", "github"].foldl
        (fun s f => if hasKey ci f then s + 1.5 else s)
        (["email", "phone"].foldl (fun s f => if hasKey ci f then s + 3.5 else s) 0) :=
      foldl_condAdd_lb _ _ (by norm_num) _ _ h1
    exact ⟨le_min h2 (by norm_num), min_le_right _ _⟩

theorem score_sections_completeness_bounds (secs : List (String × Bool)) :
    0 ≤ score_sections_completeness secs ∧ score_sections_completeness secs ≤ 10 := by
  unfold score_sections_completeness
  split_ifs
  · norm_num
  · have h1 : (0 : ℚ) ≤ ["experience", "education", "skills"].foldl
        (fun s sec => if getB secs sec then s + 2.0 else s) 0 :=
      foldl_condAdd_lb _ _ (by norm_num) _ _ le_rfl
    have h2 : (0 : ℚ) ≤ ["summary", "projects"].foldl
        (fun s sec => if getB secs sec then s + 1.5 else s)
        (["experience", "education", "skills"].foldl
          (fun s sec => if getB secs sec then s + 2.0 else s) 0) :=
      foldl_condAdd_lb _ _ (by norm_num) _ _ h1
    have h3 : (0 : ℚ) ≤ ["certifications", "achievements"].foldl
        (fun s sec => if getB secs sec then s + 0.5 else s)
        (["summary", "projects"].foldl (fun s sec => if getB secs sec then s + 1.5 else s)
          (["experience", "education", "skills"].foldl
            (fun s sec => if getB secs sec then s + 2.0 else s) 0)) :=
      foldl_condAdd_lb _ _ (by norm_num) _ _ h2
    exact ⟨le_min h3 (by norm_num), min_le_right _ _⟩

theorem score_readability_bounds (m : List (String × ℚ)) :
    0 ≤ score_readability m ∧ score_readability m ≤ 10 := by
  unfold score_readability
  split_ifs
  · norm_num
  · exact ⟨le_max_left _ _,
      max_le (by norm_num) (le_trans (min_le_right _ _) (by norm_num))⟩

theorem score_project_quality_bounds (ps : List String) :
    0 ≤ score_project_quality ps ∧ score_project_quality ps ≤ 10 := by
  unfold score_project_quality
  split_ifs with hnil
  · norm_num
  · have hq : (0 : ℚ) ≤
        if ps.length ≥ ideal_projects then 5.0
        else if ps.length ≥ min_projects then 3.0 + (((ps.length : ℚ) - 1) / 2) * 2.0
        else 0.0 := by
      split_ifs with ha hb
      · norm_num
      · have : (1 : ℚ) ≤ (ps.length : ℚ) := by exact_mod_cast hb
        nlinarith
      · norm_num
    have hs : (0 : ℚ) ≤ ((ps.take 3).map (fun p =>
        let words := (pySplit p).length
        if words ≥ 15 then (1.67 : ℚ) else if words ≥ 8 then 1.0 else 0.5)).sum := by
      apply List.sum_nonneg
      intro x hx
      obtain ⟨p, _, rfl⟩ := List.mem_map.mp hx
      dsimp only
      split_ifs <;> norm_num
    exact ⟨le_min (by linarith) (by norm_num), min_le_right _ _⟩

theorem score_content_length_bounds (wc : ℚ) (h0 : 0 ≤ wc) :
    0 ≤ score_content_length wc ∧ score_content_length wc ≤ 10 := by
  unfold score_content_length min_word_count ideal_word_count max_word_count
  split_ifs with h1 h2 h3
  · constructor <;> nlinarith
  · push_neg at h1
    constructor <;> nlinarith
  · push_neg at h1 h2
    constructor <;> nlinarith
  · norm_num

theorem diversityOfCount_step (c : ℕ) :
    diversityOfCount c ≤ diversityOfCount (c + 1) := by
  rcases Nat.lt_or_ge c 5 with h | h
  · interval_cases c <;> norm_num [diversityOfCount]
  · have h1 : c + 1 ≥ 5 := by omega
    simp [diversityOfCount, h, h1]

theorem diversityOfCount_mono {m n : ℕ} (h : m ≤ n) :
    diversityOfCount m ≤ diversityOfCount n := by
  induction n, h using Nat.le_induction with
  | base => exact le_rfl
  | succ n hmn ih => exact le_trans ih (diversityOfCount_step n)

theorem quantityOfTotal_step (t : ℕ) :
    quantityOfTotal t ≤ quantityOfTotal (t + 1) := by
  rcases Nat.lt_or_ge t 15 with h | h
  · interval_cases t <;> norm_num [quantityOfTotal, min_skills, ideal_skills]
  · have h1 : (15 : ℚ) ≤ (t : ℚ) := by exact_mod_cast h
    have h2 : (15 : ℚ) ≤ ((t + 1 : ℕ) : ℚ) := by push_cast; linarith
    rw [quantityOfTotal, quantityOfTotal, ideal_skills, if_pos h1, if_pos h2]

theorem quantityOfTotal_mono {m n : ℕ} (h : m ≤ n) :
    quantityOfTotal m ≤ quantityOfTotal n := by
  induction n, h using Nat.le_induction with
  | base => exact le_rfl
  | succ n hmn ih => exact le_trans ih (quantityOfTotal_step n)

/-
Claim theorems.
-/

/-- C1 counterexample: on the degenerate bundle (all maps empty, no error) the
code does NOT return all-zero scores: the readability criterion gets the
neutral score 5.0 (empty metrics dict) and the overall score is 0.8, not 0.0. -/
theorem c1_counterexample :
    (calculate_overall_score degenerateBundle).overall_score ≠ 0 ∧
    assocLookup "readability" (calculate_overall_score degenerateBundle).detailed_scores ≠
      some 0 := by
  norm_num +decide [calculate_overall_score, degenerateBundle, getD, assocLookup,
    score_skills_diversity, score_skills_quantity, score_contact_completeness,
    score_sections_completeness, score_readability, score_project_quality,
    score_content_length, min_word_count, weights, roundTo1, pyRoundInt]

/-- C1 (amended): for the degenerate feature bundle (empty skills, contact,
sections and readability maps, zero projects, zero word count, no error field),
`calculate_overall_score` returns 0.0 for six of the seven detailed scores but
5.0 (the neutral score) for readability; the overall score is 0.8 (= round(5.0
x 0.15, 1) by round-half-even) and the rating category is "Poor". -/
theorem c1_amended :
    calculate_overall_score degenerateBundle =
      { overall_score := 0.8
        rating_category := some "Poor"
        rating_description := some "Resume requires complete overhaul"
        detailed_scores :=
          [("skills_diversity", 0), ("skills_quantity", 0),
           ("contact_completeness", 0), ("sections_completeness", 0),
           ("readability", 5), ("project_quality", 0), ("content_length", 0)]
        improvement_priority :=
          some ["Skills Diversity", "Skills Quantity", "Contact Completeness"]
        error := none } := by
  norm_num +decide [calculate_overall_score, degenerateBundle, getD, assocLookup,
    score_skills_diversity, score_skills_quantity, score_contact_completeness,
    score_sections_completeness, score_readability, score_project_quality,
    score_content_length, min_word_count, weights, roundTo1, pyRoundInt,
    identifyImprovementPriorities, pySorted, insSorted, scoreLe, prioLoop,
    displayName, pyTitle, pyTitleAux]

/-- C2 counterexample: at the 800-word boundary the content-length score is
7.0, not 5.0 as claimed. -/
theorem c2_counterexample : score_content_length 800 ≠ 5 := by
  norm_num [score_content_length, min_word_count, ideal_word_count, max_word_count]

/-- C2 (amended): the content-length curve is: below 150 words, (wc/150)*4
(linear 0 to 4); from 150 to 400, 7 + 3*(wc-150)/250 (linear 7 to 10); from 400
to 800, 10 - 3*(wc-400)/400 (linear 10 down to 7, NOT down to 5); above 800,
flat 5.  In particular score(150) = 7.0 and score(400) = 10.0 as claimed, but
score(800) = 7.0, not 5.0. -/
theorem c2_amended :
    (∀ wc : ℚ,
      (wc < 150 → score_content_length wc = (wc / 150) * 4) ∧
      (150 ≤ wc → wc ≤ 400 → score_content_length wc = 7 + ((wc - 150) / 250) * 3) ∧
      (400 < wc → wc ≤ 800 → score_content_length wc = 10 - ((wc - 400) / 400) * 3) ∧
      (800 < wc → score_content_length wc = 5)) ∧
    score_content_length 150 = 7 ∧ score_content_length 400 = 10 ∧
    score_content_length 800 = 7 := by
  refine ⟨?_, ?_, ?_, ?_⟩
  · intro wc
    refine ⟨?_, ?_, ?_, ?_⟩ <;> intro h <;>
      try intro h2
    all_goals
      unfold score_content_length min_word_count ideal_word_count max_word_count
    all_goals
      split_ifs <;> first | (exfalso; linarith) | (norm_num; try ring)
  · norm_num [score_content_length, min_word_count, ideal_word_count, max_word_count]
  · norm_num [score_content_length, min_word_count, ideal_word_count, max_word_count]
  · norm_num [score_content_length, min_word_count, ideal_word_count, max_word_count]

/-- C2 witness for the amended curve: a 100-word resume scores (100/150)*4 = 8/3. -/
theorem c2_amended_witness : score_content_length 100 = 8 / 3 := by
  have h := (c2_amended.1 100).1 (by norm_num)
  rw [h]; norm_num

/-- C3: code behavior at the failing inputs.  The phone regex contains one
capture group, so `re.findall` returns group contents; the contact dict maps
'phone' to the group (the optional country-code prefix) instead of the matched
phone number.  For "Call 555-123-4567" the group did not participate and the
stored value is the empty string; for "Reach me at +1 555-123-4567" it is
"+1 " — never the full phone number, contradicting the specified behavior
(first full match, never empty string). -/
theorem c3_code_behavior :
    analyze_contact_info "Call 555-123-4567" = [("phone", "")] ∧
    analyze_contact_info "Reach me at +1 555-123-4567" = [("phone", "+1 ")] := by
  constructor <;> decide

/-- C4 counterexample: with every section present and every detailed score
high, both the content-suggestion and section-suggestion lists are empty, so
their [2:4] slices are empty and the `important` tier is empty — the claim that
it is always non-empty is false. -/
theorem c4_counterexample :
    (generate_priority_suggestions rand0 allSectionsBundle highScoreReport).important = [] := by
  norm_num +decide [generate_priority_suggestions, allSectionsBundle, highScoreReport,
    generate_content_suggestions, generate_section_suggestions, getScore, getD, getB,
    assocLookup, hasKey, pyDedupNonEmpty, dedupAux]

/-- C4 (amended): the `important` tier always receives exactly the [2:4]
slices of the content-suggestion and section-suggestion lists (deduplicated,
empty strings dropped), independent of what was flagged critical; but those
slices are empty whenever each list has at most two entries, so `important`
can be empty — in particular when everything scores well. -/
theorem c4_amended :
    ∀ (r : RandOracle) (ar : AnalysisResult) (rr : RatingResult),
      (generate_priority_suggestions r ar rr).important =
        pyDedupNonEmpty
          (((generate_content_suggestions ar rr.detailed_scores).drop 2).take 2 ++
           ((generate_section_suggestions r ar.sections rr.detailed_scores).drop 2).take 2) := by
  intro r ar rr
  rfl

theorem overall_score_eq (ar : AnalysisResult) (h : ar.error = none) :
    (calculate_overall_score ar).overall_score =
      roundTo1 (score_skills_diversity ar.skills * 0.20 +
        score_skills_quantity ar.skills * 0.15 +
        score_contact_completeness ar.contact_info * 0.10 +
        score_sections_completeness ar.sections * 0.15 +
        score_readability ar.readability * 0.15 +
        score_project_quality ar.projects * 0.15 +
        score_content_length (getD ar.readability "word_count" 0) * 0.10) := by
  simp only [calculate_overall_score, h]
  norm_num +decide [weights]

/-- C5: every one of the seven criterion scoring functions stays within
[0, 10] on arbitrary inputs (content length under the bundle invariant that
the word count is non-negative), and the weighted, rounded overall score of
`calculate_overall_score` stays within [0, 10] for every analysis bundle. -/
theorem c5_score_bounds :
    (∀ s : List (String × List String),
      0 ≤ score_skills_diversity s ∧ score_skills_diversity s ≤ 10) ∧
    (∀ s : List (String × List String),
      0 ≤ score_skills_quantity s ∧ score_skills_quantity s ≤ 10) ∧
    (∀ ci : List (String × String),
      0 ≤ score_contact_completeness ci ∧ score_contact_completeness ci ≤ 10) ∧
    (∀ secs : List (String × Bool),
      0 ≤ score_sections_completeness secs ∧ score_sections_completeness secs ≤ 10) ∧
    (∀ m : List (String × ℚ), 0 ≤ score_readability m ∧ score_readability m ≤ 10) ∧
    (∀ ps : List String, 0 ≤ score_project_quality ps ∧ score_project_quality ps ≤ 10) ∧
    (∀ wc : ℚ, 0 ≤ wc → 0 ≤ score_content_length wc ∧ score_content_length wc ≤ 10) ∧
    (∀ ar : AnalysisResult, 0 ≤ getD ar.readability "word_count" 0 →
      0 ≤ (calculate_overall_score ar).overall_score ∧
        (calculate_overall_score ar).overall_score ≤ 10) := by
  refine ⟨score_skills_diversity_bounds, score_skills_quantity_bounds,
    score_contact_completeness_bounds, score_sections_completeness_bounds,
    score_readability_bounds, score_project_quality_bounds,
    score_content_length_bounds, ?_⟩
  intro ar hwc
  cases herr : ar.error with
  | some e =>
    simp only [calculate_overall_score, herr]
    norm_num
  | none =>
    rw [overall_score_eq ar herr]
    obtain ⟨a1, b1⟩ := score_skills_diversity_bounds ar.skills
    obtain ⟨a2, b2⟩ := score_skills_quantity_bounds ar.skills
    obtain ⟨a3, b3⟩ := score_contact_completeness_bounds ar.contact_info
    obtain ⟨a4, b4⟩ := score_sections_completeness_bounds ar.sections
    obtain ⟨a5, b5⟩ := score_readability_bounds ar.readability
    obtain ⟨a6, b6⟩ := score_project_quality_bounds ar.projects
    obtain ⟨a7, b7⟩ := score_content_length_bounds _ hwc
    exact roundTo1_bounds _ (by nlinarith) (by nlinarith)

/-- C5 witness: concrete instances of the bounds. -/
theorem c5_bounds_witness :
    (0 ≤ score_content_length 100 ∧ score_content_length 100 ≤ 10) ∧
    (0 ≤ (calculate_overall_score degenerateBundle).overall_score ∧
      (calculate_overall_score degenerateBundle).overall_score ≤ 10) :=
  ⟨c5_score_bounds.2.2.2.2.2.2.1 100 (by norm_num),
   c5_score_bounds.2.2.2.2.2.2.2 degenerateBundle
     (by norm_num [degenerateBundle, getD, assocLookup])⟩

/-- C6: `_identify_improvement_priorities` equals, for every detailed-score
mapping, the stable ascending sort by score, truncated to the first three,
filtered to scores strictly below 7.0, display names applied — and hence has
at most three entries (possibly zero). -/
theorem c6_improvement_priority :
    ∀ ds : List (String × ℚ),
      identifyImprovementPriorities ds =
        (((pySorted scoreLe ds).take 3).filter (fun p => decide (p.2 < 7.0))).map
          (fun p => displayName p.1) ∧
      (identifyImprovementPriorities ds).length ≤ 3 := by
  intro ds
  have h := prioLoop_eq_filter ((pySorted scoreLe ds).take 3)
  refine ⟨h, ?_⟩
  rw [show identifyImprovementPriorities ds = _ from h]
  rw [List.length_map]
  exact le_trans (List.length_filter_le _ _) (by simp [List.length_take])

/-- C7: `score_skills_diversity` is monotone non-decreasing in the number of
skill categories, and `score_skills_quantity` is monotone non-decreasing in
the total number of skills across categories. -/
theorem c7_monotonicity :
    (∀ s1 s2 : List (String × List String), s1.length ≤ s2.length →
      score_skills_diversity s1 ≤ score_skills_diversity s2) ∧
    (∀ s1 s2 : List (String × List String), totalSkills s1 ≤ totalSkills s2 →
      score_skills_quantity s1 ≤ score_skills_quantity s2) := by
  constructor
  · intro s1 s2 hle
    by_cases h1 : s1 = []
    · rw [score_skills_diversity, if_pos h1]
      exact (score_skills_diversity_bounds s2).1
    · have h2 : s2 ≠ [] := by
        intro h2
        rw [h2] at hle
        simp only [List.length_nil, Nat.le_zero, List.length_eq_zero] at hle
        exact h1 hle
      rw [score_skills_diversity, score_skills_diversity, if_neg h1, if_neg h2]
      exact diversityOfCount_mono hle
  · intro s1 s2 hle
    by_cases h1 : s1 = []
    · rw [score_skills_quantity, if_pos h1]
      exact (score_skills_quantity_bounds s2).1
    · by_cases h2 : s2 = []
      · subst h2
        have ht2 : totalSkills ([] : List (String × List String)) = 0 := rfl
        rw [ht2] at hle
        have ht1 : totalSkills s1 = 0 := Nat.le_zero.mp hle
        rw [score_skills_quantity, score_skills_quantity, if_neg h1, if_pos rfl, ht1]
        norm_num [quantityOfTotal, min_skills, ideal_skills]
      · rw [score_skills_quantity, score_skills_quantity, if_neg h1, if_neg h2]
        exact quantityOfTotal_mono hle

/-- C7 witness: adding a category (resp. skills) at concrete dicts does not
decrease the corresponding score. -/
theorem c7_monotonicity_witness :
    score_skills_diversity [("programming_languages", ["Python"])] ≤
      score_skills_diversity [("programming_languages", ["Python"]), ("databases", ["SQL"])] ∧
    score_skills_quantity [("programming_languages", ["Python"])] ≤
      score_skills_quantity [("programming_languages", ["Python", "Java"])] :=
  ⟨c7_monotonicity.1 _ _ (by norm_num),
   c7_monotonicity.2 _ _ (by norm_num [totalSkills])⟩

/-- C8: whenever the analysis result carries an `error` entry,
`calculate_overall_score` short-circuits (it is a total function, so it cannot
throw) and returns overall score 0.0, an empty detailed-scores mapping, and
the same error value; no rating fields are produced. -/
theorem c8_error_short_circuit :
    ∀ (ar : AnalysisResult) (e : String), ar.error = some e →
      calculate_overall_score ar =
        { overall_score := 0
          rating_category := none
          rating_description := none
          detailed_scores := []
          improvement_priority := none
          error := some e } := by
  intro ar e h
  simp only [calculate_overall_score, h]
  norm_num

/-- C8 witness: the short circuit at a concrete errored bundle. -/
theorem c8_error_short_circuit_witness :
    calculate_overall_score erroredBundle =
      { overall_score := 0
        rating_category := none
        rating_description := none
        detailed_scores := []
        improvement_priority := none
        error := some "No text provided for analysis" } :=
  c8_error_short_circuit erroredBundle "No text provided for analysis" rfl

/-- C9 counterexample: on a lookup miss `compare_with_job` never throws and
returns match_score 0 with an empty `missing_keywords` list, but the
`required_keywords` and `matched_keywords` keys are absent from the error
object (not empty lists), so the claim as stated is false. -/
theorem c9_counterexample :
    ¬ ((compare_with_job jobKeywordsDb degenerateBundle "Nonexistent Title").match_score =
          some 0 ∧
       (compare_with_job jobKeywordsDb degenerateBundle "Nonexistent Title").required_keywords =
          some [] ∧
       (compare_with_job jobKeywordsDb degenerateBundle "Nonexistent Title").matched_keywords =
          some [] ∧
       (compare_with_job jobKeywordsDb degenerateBundle "Nonexistent Title").missing_keywords =
          some []) := by
  simp +decide [compare_with_job, jobKeywordsDb, pyLower, assocLookup]

/-- C9 (amended): for every job-keyword dictionary and every job title whose
lowercased form is not a key of it, `compare_with_job` never throws (it is a
total function) and returns the error object with `match_score` 0 and an empty
`missing_keywords` list; the `required_keywords` and `matched_keywords` keys
are absent. -/
theorem c9_amended :
    ∀ (db : List (String × List String)) (ar : AnalysisResult) (title : String),
      assocLookup (pyLower title) db = none →
      compare_with_job db ar title =
        { error := some ("Job title \"" ++ title ++ "\" not found in database")
          required_keywords := none
          matched_keywords := none
          missing_keywords := some []
          match_score := some 0
          recommendations := none } := by
  intro db ar title h
  simp only [compare_with_job, h]

/-- C9 witness: the lookup-miss result at a concrete dictionary and title. -/
theorem c9_amended_witness :
    compare_with_job jobKeywordsDb degenerateBundle "Nonexistent Title" =
      { error := some "Job title \"Nonexistent Title\" not found in database"
        required_keywords := none
        matched_keywords := none
        missing_keywords := some []
        match_score := some 0
        recommendations := none } :=
  c9_amended jobKeywordsDb degenerateBundle "Nonexistent Title" (by decide)

/-- C10: `score_readability` returns exactly the neutral 5.0 on an empty
metrics mapping; on a non-empty mapping that lacks the `avg_sentence_length`
and `complexity_ratio` keys it scores with the defaults 20 and 0.3, giving
(5 - (20-15)/10*2) + 5 = 9.0 — not 0 for absent metrics. -/
theorem c10_readability_defaults :
    score_readability [] = 5 ∧
    (∀ m : List (String × ℚ), m ≠ [] →
      assocLookup "avg_sentence_length" m = none →
      assocLookup "complexity_ratio" m = none →
      score_readability m = 9) ∧
    score_readability [("word_count", 0)] = 9 := by
  refine ⟨by norm_num [score_readability], ?_, ?_⟩
  · intro m hm h1 h2
    rw [score_readability, if_neg hm]
    simp only [getD, h1, h2, Option.getD_none]
    norm_num [ideal_sentence_length, max_sentence_length, min_def, max_def]
  · norm_num +decide [score_readability, getD, assocLookup,
      ideal_sentence_length, max_sentence_length, min_def, max_def]

/-- C10 witness: a metrics dict holding only the word count scores 9.0 via the
defaults. -/
theorem c10_readability_defaults_witness :
    score_readability [("word_count", 42)] = 9 :=
  c10_readability_defaults.2.1 [("word_count", 42)] (List.cons_ne_nil _ _)
    (by simp +decide [assocLookup]) (by simp +decide [assocLookup])
